import Mathlib

/-!
Shallow embedding of the task-execution and extraction pipeline of
`src/main.py` (a FastAPI + Celery + Selenium product scraper), together
with theorems settling the frozen claims about it.

Modelling conventions:
* A browser page is modelled by query oracles: `css : String → Option String`
  gives the stripped-source text of the first element matching a CSS wait
  query (`none` models a timeout / missing element); `findTexts` gives the
  texts of all elements matching a `find_elements` query.
* Python string helpers are re-implemented structurally on `List Char`
  (`pyStrip` for `str.strip`, `pyIn` for the `in` substring test,
  `pyFloat` for `float(...)` on finite decimal literals) so that the
  kernel can evaluate them on concrete inputs.
* Machine floats of the source hold exact decimal amounts here, so they
  are modelled by `ℚ`.
-/

set_option autoImplicit false

namespace ScrapedApi

/-- Python `str.strip()`: drop leading and trailing whitespace.
(Modelled on `List Char` so it reduces structurally.) -/
def pyStrip (s : String) : String :=
  String.mk (((s.toList.dropWhile Char.isWhitespace).reverse.dropWhile Char.isWhitespace).reverse)

/-- Auxiliary for the Python substring test: does `pat` occur inside the list? -/
def hasSubstr (pat : List Char) : List Char → Bool
  | [] => pat.isEmpty
  | c :: rest => pat.isPrefixOf (c :: rest) || hasSubstr pat rest

/-- Python `pat in s` on strings (also the semantics of a CSS `[attr*=pat]` filter). -/
def pyIn (pat s : String) : Bool := hasSubstr pat.toList s.toList

/-- Python `str.lower()` (ASCII case folding suffices for the strings involved). -/
def pyLower (s : String) : String := String.mk (s.toList.map Char.toLower)

/-- Numeric value of a digit list, most significant first. -/
def digitsToNat (cs : List Char) : Nat := cs.foldl (fun a c => a * 10 + (c.toNat - 48)) 0

/-- A nonempty list of decimal digits? -/
def isDigits (cs : List Char) : Bool := !cs.isEmpty && cs.all Char.isDigit

/-- Mantissa of a Python float literal: `digits`, `digits.digits`, `digits.` or
`.digits`. Returns (integer-part value, fraction-part value, fraction length). -/
def parseMantissa (cs : List Char) : Option (Nat × Nat × Nat) :=
  let intPart := cs.takeWhile (fun c => c ≠ '.')
  match cs.dropWhile (fun c => c ≠ '.') with
  | [] => if isDigits intPart then some (digitsToNat intPart, 0, 0) else none
  | _ :: frac =>
    if frac.any (fun c => c = '.') then none
    else if intPart.all Char.isDigit && frac.all Char.isDigit &&
        (!intPart.isEmpty || !frac.isEmpty) then
      some (digitsToNat intPart, digitsToNat frac, frac.length)
    else none

/-- Exponent part of a Python float literal: optional sign, then digits. -/
def parseExpo (cs : List Char) : Option ℤ :=
  let (sgn, body) : ℤ × List Char :=
    match cs with
    | '+' :: r => (1, r)
    | '-' :: r => (-1, r)
    | r => (1, r)
  if isDigits body then some (sgn * (digitsToNat body : ℤ)) else none

/-- Structural payload of a successful Python float parse. -/
structure FloatParse where
  neg : Bool
  ip : Nat
  fp : Nat
  fdigits : Nat
  expo : ℤ
deriving DecidableEq

/-- Python `float(s)` restricted to finite decimal literals (optional sign,
digits with at most one dot, optional exponent); the special forms
`inf`/`nan` and digit-group underscores are not modelled. `none` models
the `ValueError` branch. -/
def pyFloatParse (s : String) : Option FloatParse :=
  let cs := (pyStrip s).toList.map Char.toLower
  let (neg, body) : Bool × List Char :=
    match cs with
    | '+' :: r => (false, r)
    | '-' :: r => (true, r)
    | r => (false, r)
  let mant := body.takeWhile (fun c => c ≠ 'e')
  match body.dropWhile (fun c => c ≠ 'e') with
  | [] => (parseMantissa mant).map (fun m => ⟨neg, m.1, m.2.1, m.2.2, 0⟩)
  | _ :: ex =>
    match parseMantissa mant, parseExpo ex with
    | some m, some e => some ⟨neg, m.1, m.2.1, m.2.2, e⟩
    | _, _ => none

/-- The rational value denoted by a parsed float. -/
def floatVal (p : FloatParse) : ℚ :=
  (if p.neg then (-1 : ℚ) else 1) * ((p.ip : ℚ) + (p.fp : ℚ) / (10 : ℚ) ^ p.fdigits) *
    (10 : ℚ) ^ p.expo

/-- Python `float(s)` as a rational (see `pyFloatParse` for the modelled grammar). -/
def pyFloat (s : String) : Option ℚ := (pyFloatParse s).map floatVal

/-! ## Selector-fallback text extraction (`safe_find_text_by_css` in `main.py`)

A wait-query oracle `css : String → Option String` returns the raw text of the
first element matching a CSS selector, `none` modelling a timeout/absence
(the `except` branch of the Python helper). -/

/-- `safe_find_text_by_css(selectors)`: try each selector in order; on a match
whose stripped text is nonempty return that text; otherwise fall through; if
every candidate fails return the default `"N/A"`. -/
def safe_find_text_by_css (css : String → Option String) : List String → String
  | [] => "N/A"
  | sel :: rest =>
    match css sel with
    | none => safe_find_text_by_css css rest
    | some t => if pyStrip t = "" then safe_find_text_by_css css rest else pyStrip t

/-- The stripped text a wait query yields for one selector (`""` when the
selector times out or matches an element with blank text). -/
def textOf (css : String → Option String) (sel : String) : String :=
  pyStrip ((css sel).getD "")

/-- The title selector-fallback chain of `main.py`. -/
def titleSelectors : List String := ["h1.prod-ProductTitle", "h1[itemprop=\"name\"]"]

/-! ## Price extraction (`extract_price` in `main.py`) -/

/-- A stored price: a parsed number, or the raw text when parsing failed. -/
inductive PriceVal where
  | num (q : ℚ)
  | raw (s : String)
deriving DecidableEq

/-- The price selector-fallback chain of `main.py`. -/
def priceSelectors : List String :=
  ["span[itemprop=\"price\"]", "span[data-automation-id=\"product-price\"]",
   "span.price-characteristic", "div[data-testid=\"price\"] span"]

/-- `text.replace('$', '').replace(',', '').strip()`: both patterns are single
characters replaced by nothing, i.e. every dollar and comma is removed. -/
def priceClean (t : String) : String :=
  pyStrip (String.mk (t.toList.filter (fun c => c ≠ '$' && c ≠ ',')))

/-- Parse a matched (already stripped) price text: a number on success, the
raw text verbatim on a `ValueError`. -/
def priceOfText (t : String) : PriceVal :=
  match pyFloat (priceClean t) with
  | some q => .num q
  | none => .raw t

/-- The candidate loop of `extract_price`. -/
def extractPriceGo (css : String → Option String) : List String → PriceVal
  | [] => .num 0
  | sel :: rest =>
    match css sel with
    | none => extractPriceGo css rest
    | some t => if pyStrip t = "" then extractPriceGo css rest else priceOfText (pyStrip t)

/-- `extract_price()`: try the price selectors in order; on the first nonempty
text parse it (falling back to the raw text); `0.0` if every candidate fails. -/
def extract_price (css : String → Option String) : PriceVal :=
  extractPriceGo css priceSelectors

/-! ## Image extraction (the media-gallery loop in `scrape_and_store`) -/

/-- Outcome of processing one gallery thumbnail: the click or the main-image
read raised (`raised`), or the displayed main image had `src` attribute
`src` (`none` models a missing attribute). -/
inductive ThumbRes where
  | raised
  | ok (src : Option String)
deriving DecidableEq

/-- The thumbnail loop: click each thumbnail, read the main image URL, and
append it unless it is falsy or already collected; a raising thumbnail is
skipped (`except: continue`). -/
def imgLoop (acc : List String) : List ThumbRes → List String
  | [] => acc
  | .raised :: rest => imgLoop acc rest
  | .ok none :: rest => imgLoop acc rest
  | .ok (some s) :: rest =>
    if s ≠ "" ∧ s ∉ acc then imgLoop (acc ++ [s]) rest else imgLoop acc rest

/-- The image extraction of `scrape_and_store`: process at most the first five
thumbnails (`thumbs[:5]`). -/
def extract_images (thumbs : List ThumbRes) : List String := imgLoop [] (thumbs.take 5)

/-- The main-image URLs offered by a thumbnail list, in encounter order
(raising thumbnails and falsy `src` values yield nothing). -/
def thumbSrcs (thumbs : List ThumbRes) : List String :=
  thumbs.filterMap (fun tr =>
    match tr with
    | .ok (some s) => if s = "" then none else some s
    | _ => none)

/-! ## Related-link extraction (`scrape_and_store`) -/

/-- Python `href.split("?")[0]`: everything before the first question mark. -/
def stripQuery (h : String) : String :=
  String.mk (h.toList.takeWhile (fun c => c ≠ '?'))

/-- The hrefs collected by `driver.find_elements('a[href*="/ip/"]')` followed by
the truthiness guard `if a.get_attribute("href")`, given all anchor hrefs of
the page. -/
def ipAnchorHrefs (anchors : List String) : List String :=
  (anchors.filter (fun h => pyIn "/ip/" h)).filter (fun h => h != "")

/-- The related-link set comprehension: strip query strings, then set
semantics (Python builds a `set`, so order is not guaranteed and duplicates
collapse). -/
def related_links (anchors : List String) : Finset String :=
  ((ipAnchorHrefs anchors).map stripQuery).toFinset

/-! ## Color and size extraction (`extract_colors` / `extract_sizes`) -/

/-- The color selector groups of `extract_colors`. -/
def colorSelectors : List String :=
  ["ul[data-tl-id*=\"color\"] button span", "ul[data-tl-id*=\"color\"] label span",
   "div[data-automation-id=\"color-picker\"] label span", "[aria-label*=\"Color\"]",
   "button[aria-checked=\"true\"] span", "[itemprop=\"color\"]"]

/-- The size selector groups of `extract_sizes`. -/
def sizeSelectors : List String :=
  ["ul[data-tl-id*=\"size\"] button span", "ul[data-tl-id*=\"size\"] label span",
   "div[data-automation-id=\"size-picker\"] label", "[aria-label*=\"Size\"]",
   "button[aria-checked=\"true\"] span"]

/-- First selector group yielding any text accepted by `keep` (the loop breaks
as soon as the accumulated set is nonempty, so groups are never merged). -/
def firstGroupTexts (findTexts : String → List String) (keep : String → Bool) :
    List String → List String
  | [] => []
  | sel :: rest =>
    let names := ((findTexts sel).map pyStrip).filter keep
    if names.isEmpty then firstGroupTexts findTexts keep rest else names

/-- `extract_colors()`: first color selector group with nonempty stripped
texts; else the stripped `alt` texts of color images (kept when the raw `alt`
is truthy); `{"N/A"}` if still empty. -/
def extract_colors (findTexts : String → List String)
    (imgColorAlts : List (Option String)) : Finset String :=
  let fromSel := firstGroupTexts findTexts (fun s => s != "") colorSelectors
  let names :=
    if fromSel.isEmpty then
      ((imgColorAlts.filterMap id).filter (fun a => a != "")).map pyStrip
    else fromSel
  if names.isEmpty then {"N/A"} else names.toFinset

/-- `extract_sizes()`: first size selector group with stripped texts that are
nonempty and not the placeholder `"select"`; `{"N/A"}` if none. -/
def extract_sizes (findTexts : String → List String) : Finset String :=
  let names :=
    firstGroupTexts findTexts (fun s => s != "" && pyLower s != "select") sizeSelectors
  if names.isEmpty then {"N/A"} else names.toFinset

/-- The about-this-item bullets: `none` models the panel never appearing
(the `except` branch stores `[]`); otherwise the paragraph texts, stripped,
empties discarded, document order preserved. -/
def extract_about (aboutParas : Option (List String)) : List String :=
  match aboutParas with
  | none => []
  | some ps => (ps.map pyStrip).filter (fun s => s != "")

/-! ## The worker `scrape_and_store` and the task life cycle

The external collaborators are collected in `PageEnv`: the browser-session
behaviour (which driver calls succeed, what the page contains) for one
execution. MongoDB writes are the state tracked in `World`; the datastore is
the trusted persistence collaborator and does not itself fail. -/

/-- Task status values written to the `tasks` collection. -/
inductive Status where
  | pending
  | running
  | completed
  | failed
deriving DecidableEq

/-- One execution's browser-session behaviour and page content. -/
structure PageEnv where
  /-- `uc.Chrome(...)` succeeds (a browser session starts). -/
  chromeOk : Bool
  /-- `driver.get(product_url)` succeeds. -/
  getOk : Bool
  /-- `driver.page_source` after navigation. -/
  pageSource : String
  /-- the blocking `input(...)` at the CAPTCHA prompt returns (rather than
  raising, e.g. `EOFError` on a closed stdin). -/
  inputOk : Bool
  /-- text of the first element matching a CSS wait query, `none` on timeout. -/
  css : String → Option String
  /-- texts of all elements matching a `find_elements` query. -/
  findTexts : String → List String
  /-- `alt` attributes of the images matching the color-fallback query. -/
  imgColorAlts : List (Option String)
  /-- the session stays alive through the uncaught `find_elements` calls of
  `extract_colors`/`extract_sizes` (these have no local `try`). -/
  findOk : Bool
  /-- outcome of each media-gallery thumbnail. -/
  thumbs : List ThumbRes
  /-- paragraph texts under the about-this-item panel, `none` if it never appears. -/
  aboutParas : Option (List String)
  /-- hrefs of all anchor elements on the page. -/
  anchors : List String
  /-- the CSV append succeeds (its failure is caught and only printed). -/
  csvOk : Bool
  /-- `driver.quit()` succeeds. -/
  quitOk : Bool
  /-- wall-clock instant used for `scraped_at`. -/
  now : Nat

/-- A stored product document (`product_col` in `main.py`). -/
structure Product where
  client_name : String
  category : String
  task_id : String
  title : String
  price : PriceVal
  images : List String
  about_this_item : List String
  colors : Finset String
  sizes : Finset String
  product_url : String
  related_links : Finset String
  scraped_at : Nat
deriving DecidableEq

/-- The submitted task's request data. -/
structure TaskIn where
  client_name : String
  category : String
  url : String
  task_id : String

/-- The observable datastore/driver state for one task: its status record,
the product documents inserted for it, whether a browser session is open,
and the trace of status values written to the task record. -/
structure World where
  taskStatus : Status
  taskError : Option String
  writes : List Status
  products : List Product
  driverOpen : Bool
  csvRows : Nat

/-- State after `submit_task`: the task record is inserted with status
`pending`; nothing else has happened. -/
def submitWorld : World :=
  { taskStatus := .pending, taskError := none, writes := [.pending],
    products := [], driverOpen := false, csvRows := 0 }

/-- Did the page source contain a CAPTCHA marker
(`"captcha" in driver.page_source.lower()`)? -/
def captchaDetected (env : PageEnv) : Bool :=
  pyIn "captcha" (pyLower env.pageSource)

/-- The product document built by `scrape_and_store` before insertion. -/
def buildProduct (env : PageEnv) (t : TaskIn) : Product :=
  { client_name := t.client_name, category := t.category, task_id := t.task_id,
    title := safe_find_text_by_css env.css titleSelectors,
    price := extract_price env.css,
    images := extract_images env.thumbs,
    about_this_item := extract_about env.aboutParas,
    colors := extract_colors env.findTexts env.imgColorAlts,
    sizes := extract_sizes env.findTexts,
    product_url := t.url,
    related_links := related_links env.anchors,
    scraped_at := env.now }

/-- The `except` handler of `scrape_and_store`: set the task status to
`failed` and store the diagnostic string in the `error` field. Nothing else
is done there (in particular the browser session is not released). -/
def failWith (w : World) (msg : String) : World :=
  { w with taskStatus := .failed, taskError := some msg, writes := w.writes ++ [.failed] }

/-- The Celery worker `scrape_and_store`, step by step: start the browser,
navigate, pass the CAPTCHA gate, extract all fields, insert the product,
append to the CSV (failure caught), quit the driver, and only then write
`completed`; any uncaught exception falls to `failWith`. -/
def scrape_and_store (env : PageEnv) (t : TaskIn) (w : World) : World :=
  if !env.chromeOk then failWith w "browser session failed to start"
  else
    let w1 : World := { w with driverOpen := true }
    if !env.getOk then failWith w1 "navigation error"
    else if captchaDetected env && !env.inputOk then
      failWith w1 "EOF when reading a line"
    else if !env.findOk then failWith w1 "browser session lost during extraction"
    else
      let w2 : World := { w1 with products := w1.products ++ [buildProduct env t] }
      let w3 : World :=
        { w2 with csvRows := if env.csvOk then w2.csvRows + 1 else w2.csvRows }
      if !env.quitOk then failWith w3 "error while closing the browser"
      else
        let w4 : World := { w3 with driverOpen := false }
        { w4 with taskStatus := .completed, writes := w4.writes ++ [.completed] }

/-- An execution in which no session-level error occurs: the browser starts,
navigation succeeds, the CAPTCHA prompt (if any) is passed, the session
survives extraction, and `driver.quit()` succeeds. -/
def goodEnv (env : PageEnv) : Prop :=
  env.chromeOk = true ∧ env.getOk = true ∧
  (captchaDetected env = false ∨ env.inputOk = true) ∧
  env.findOk = true ∧ env.quitOk = true

/-- The worker reaches the `product_col.insert_one` line exactly when no
session-level error occurs before it. -/
def reachedInsert (env : PageEnv) : Bool :=
  env.chromeOk && env.getOk && (!captchaDetected env || env.inputOk) && env.findOk

/-! ## Listing endpoints (`list_tasks` / `list_products`) -/

/-- A stored task document as listed by `/tasks/`. -/
structure TaskRec where
  task_id : String
  client_name : String
  category : String
  url : String
  status : String
  created_at : Nat
  error : Option String
deriving DecidableEq

/-- Python truthiness of an `Optional[str]` query parameter: `None` and `""`
are both falsy. -/
def pyTruthy (o : Option String) : Bool :=
  match o with
  | none => false
  | some s => s != ""

/-- The Mongo query built by `list_tasks`: an equality constraint is added
for each truthy parameter. -/
def taskMatch (cn st cat : Option String) (t : TaskRec) : Bool :=
  (!pyTruthy cn || (t.client_name == cn.getD "")) &&
  (!pyTruthy st || (t.status == st.getD "")) &&
  (!pyTruthy cat || (t.category == cat.getD ""))

/-- Insert into a list kept in descending key order (models the Mongo
`sort(key, -1)` of the listing endpoints). -/
def insertDescBy {α : Type} (key : α → Nat) (a : α) : List α → List α
  | [] => [a]
  | b :: rest => if key b < key a then a :: b :: rest else b :: insertDescBy key a rest

/-- Sort a list in descending key order. -/
def sortDescBy {α : Type} (key : α → Nat) (l : List α) : List α :=
  l.foldr (insertDescBy key) []

/-- `GET /tasks/`: filter by the truthy parameters, newest first. -/
def list_tasks (cn st cat : Option String) (tasks : List TaskRec) : List TaskRec :=
  sortDescBy TaskRec.created_at (tasks.filter (taskMatch cn st cat))

/-- The Mongo price range constraint of `list_products`: added only when a
bound is not `None`; a `$gte`/`$lte` on a number never matches a document
whose `price` is a string (Mongo type bracketing). -/
def priceInRange (mn mx : Option ℚ) (p : PriceVal) : Bool :=
  if mn.isNone && mx.isNone then true
  else
    match p with
    | .raw _ => false
    | .num q =>
      (match mn with | none => true | some a => decide (a ≤ q)) &&
      (match mx with | none => true | some b => decide (q ≤ b))

/-- The Mongo query built by `list_products`. -/
def productMatch (cn cat : Option String) (mn mx : Option ℚ) (p : Product) : Bool :=
  (!pyTruthy cn || (p.client_name == cn.getD "")) &&
  (!pyTruthy cat || (p.category == cat.getD "")) &&
  priceInRange mn mx p.price

/-- `GET /products/`: filter by the truthy parameters and the price range,
newest scraped first. -/
def list_products (cn cat : Option String) (mn mx : Option ℚ) (ps : List Product) :
    List Product :=
  sortDescBy Product.scraped_at (ps.filter (productMatch cn cat mn mx))

/-! ## Concrete executions used as witnesses and counterexamples -/

/-- A demo task submission. -/
def demoTask : TaskIn :=
  { client_name := "acme", category := "toys", url := "https://w.com/ip/1", task_id := "t1" }

/-- A fully successful demo execution. -/
def demoEnv : PageEnv :=
  { chromeOk := true, getOk := true, pageSource := "<html>ok</html>", inputOk := true,
    css := fun sel => if sel = "h1.prod-ProductTitle" then some "Demo Product" else none,
    findTexts := fun _ => [], imgColorAlts := [], findOk := true,
    thumbs := [.ok (some "https://img/1.jpg")], aboutParas := none,
    anchors := ["https://w.com/ip/1?a=2"], csvOk := true, quitOk := true, now := 7 }

/-- The demo execution, except that `driver.quit()` raises. -/
def quitFailEnv : PageEnv := { demoEnv with quitOk := false }

/-- The demo execution, except that `driver.get` raises after the session
has started. -/
def navFailEnv : PageEnv := { demoEnv with getOk := false }

/-- The demo execution, except that the first thumbnail click raises and a
second thumbnail succeeds. -/
def flakyThumbEnv : PageEnv :=
  { demoEnv with thumbs := [.raised, .ok (some "https://img/2.jpg")] }

/-- A page where only the second title candidate matches, with padded text. -/
def secondTitleCss : String → Option String :=
  fun sel => if sel = "h1[itemprop=\"name\"]" then some " Widget " else none

/-- A page whose first price candidate yields unparsable text. -/
def rawPriceCss : String → Option String :=
  fun sel => if sel = "span[itemprop=\"price\"]" then some "Contact for price" else none

/-! ## Helper lemmas about the worker -/

/-- On a session-error-free execution the worker writes `completed`. -/
theorem scrape_good_status (env : PageEnv) (t : TaskIn) (w : World) (hg : goodEnv env) :
    (scrape_and_store env t w).taskStatus = .completed := by
  obtain ⟨h1, h2, h3, h4, h5⟩ := hg
  rcases h3 with h3 | h3 <;>
    simp [scrape_and_store, h1, h2, h3, h4, h5]

/-- On a session-error-free execution the worker inserts exactly the built
product document. -/
theorem scrape_good_products (env : PageEnv) (t : TaskIn) (w : World) (hg : goodEnv env) :
    (scrape_and_store env t w).products = w.products ++ [buildProduct env t] := by
  obtain ⟨h1, h2, h3, h4, h5⟩ := hg
  rcases h3 with h3 | h3 <;>
    simp [scrape_and_store, h1, h2, h3, h4, h5]

/-! ## C1 -/

/-- C1: after the worker returns, the task status is exactly one of
`completed` or `failed` — on every exception path the task-boundary handler
stores `failed` together with a diagnostic string in the `error` field, so
the task is never left `pending` or `running`. -/
theorem task_terminal_spec (env : PageEnv) (t : TaskIn) (w : World) :
    (scrape_and_store env t w).taskStatus = .completed ∨
      ((scrape_and_store env t w).taskStatus = .failed ∧
        (scrape_and_store env t w).taskError.isSome = true) := by
  cases hc : env.chromeOk <;> cases hg : env.getOk <;> cases hcap : captchaDetected env <;>
    cases hi : env.inputOk <;> cases hf : env.findOk <;> cases hq : env.quitOk <;>
    simp [scrape_and_store, failWith, hc, hg, hcap, hi, hf, hq]

/-! ## C5 -/

/-- C5 counterexample: in a fully successful execution the `running` status
is never written — the code moves the task from `pending` directly to a
terminal status, so the claimed `pending → running → terminal` machine does
not hold. -/
theorem running_status_never_set_cx :
    (scrape_and_store demoEnv demoTask submitWorld).taskStatus = .completed ∧
    Status.running ∉ (scrape_and_store demoEnv demoTask submitWorld).writes := by decide

/-- C5 (amended): the status writes of a task are exactly `pending` at
submission followed by one terminal status (`completed` or `failed`) written
by the worker; the `running` status of the spec is never written. -/
theorem task_transition_spec (env : PageEnv) (t : TaskIn) :
    (scrape_and_store env t submitWorld).writes =
      [Status.pending, (scrape_and_store env t submitWorld).taskStatus] ∧
    ((scrape_and_store env t submitWorld).taskStatus = .completed ∨
      (scrape_and_store env t submitWorld).taskStatus = .failed) := by
  cases hc : env.chromeOk <;> cases hg : env.getOk <;> cases hcap : captchaDetected env <;>
    cases hi : env.inputOk <;> cases hf : env.findOk <;> cases hq : env.quitOk <;>
    simp [scrape_and_store, failWith, submitWorld, hc, hg, hcap, hi, hf, hq]

/-! ## C6 -/

/-- C6 (code bug): when navigation raises after the browser session has
started, the `except` handler writes the terminal `failed` status while the
browser session is still open — `driver.quit()` is never called on the
failure path, contradicting the required release-before-terminal-write. -/
theorem session_leak_on_failure :
    (scrape_and_store navFailEnv demoTask submitWorld).taskStatus = .failed ∧
    (scrape_and_store navFailEnv demoTask submitWorld).driverOpen = true := by decide

/-! ## C4 -/

/-- C4 counterexample: an execution that fails after the product insert
(here `driver.quit()` raises) ends with task status `failed` and a Product
document present, refuting "a Product exists only if the task completed". -/
theorem product_for_failed_task_cx :
    (scrape_and_store quitFailEnv demoTask submitWorld).taskStatus = .failed ∧
    (scrape_and_store quitFailEnv demoTask submitWorld).products ≠ [] := by decide

/-- C4 (amended): a completed task has exactly one Product document, created
once; a Product document exists iff execution reached the insertion point,
so a task failing before insertion has no Product — but a failure after
insertion (while closing the browser or writing `completed`) leaves a
Product for a `failed` task. -/
theorem product_insertion_spec (env : PageEnv) (t : TaskIn) :
    ((scrape_and_store env t submitWorld).taskStatus = .completed →
      (scrape_and_store env t submitWorld).products = [buildProduct env t]) ∧
    ((scrape_and_store env t submitWorld).products = [buildProduct env t] ↔
      reachedInsert env = true) ∧
    (reachedInsert env = false → (scrape_and_store env t submitWorld).products = []) := by
  cases hc : env.chromeOk <;> cases hg : env.getOk <;> cases hcap : captchaDetected env <;>
    cases hi : env.inputOk <;> cases hf : env.findOk <;> cases hq : env.quitOk <;>
    simp [scrape_and_store, failWith, submitWorld, reachedInsert, hc, hg, hcap, hi, hf, hq]

/-- C4 witness: the all-successful demo execution completes and has exactly
its one Product document. -/
theorem product_insertion_spec_witness :
    (scrape_and_store demoEnv demoTask submitWorld).products =
      [buildProduct demoEnv demoTask] :=
  (product_insertion_spec demoEnv demoTask).1 (by decide)

/-! ## Helper lemmas about the fallback chains -/

/-- A selector that times out yields the empty stripped text. -/
theorem textOf_none {css : String → Option String} {sel : String} (h : css sel = none) :
    textOf css sel = "" := by
  simp only [textOf, h, Option.getD_none]
  decide

/-- A matched selector yields its element's stripped text. -/
theorem textOf_some {css : String → Option String} {sel : String} {t : String}
    (h : css sel = some t) : textOf css sel = pyStrip t := by
  simp only [textOf, h, Option.getD_some]

/-- The fallback chain returns the stripped text of the first candidate with
nonempty stripped text, and `"N/A"` when there is none. -/
theorem safe_find_eq_find (css : String → Option String) (sels : List String) :
    safe_find_text_by_css css sels =
      match sels.find? (fun sel => textOf css sel != "") with
      | some sel => textOf css sel
      | none => "N/A" := by
  induction sels with
  | nil => rfl
  | cons sel rest ih =>
    cases h : css sel with
    | none =>
      have ht : textOf css sel = "" := textOf_none h
      simp [safe_find_text_by_css, List.find?, h, ht, ih]
    | some t =>
      have ht : textOf css sel = pyStrip t := textOf_some h
      by_cases he : pyStrip t = ""
      · simp [safe_find_text_by_css, List.find?, h, ht, he, ih]
      · have hb : (pyStrip t != "") = true := by simp [he]
        simp [safe_find_text_by_css, List.find?, h, hb, ht, he]

/-- The price chain returns the parse of the first candidate with nonempty
stripped text, and `0.0` when there is none. -/
theorem extractPriceGo_eq_find (css : String → Option String) (sels : List String) :
    extractPriceGo css sels =
      match sels.find? (fun sel => textOf css sel != "") with
      | some sel => priceOfText (textOf css sel)
      | none => .num 0 := by
  induction sels with
  | nil => rfl
  | cons sel rest ih =>
    cases h : css sel with
    | none =>
      have ht : textOf css sel = "" := textOf_none h
      simp [extractPriceGo, List.find?, h, ht, ih]
    | some t =>
      have ht : textOf css sel = pyStrip t := textOf_some h
      by_cases he : pyStrip t = ""
      · simp [extractPriceGo, List.find?, h, ht, he, ih]
      · have hb : (pyStrip t != "") = true := by simp [he]
        simp [extractPriceGo, List.find?, h, hb, ht, he]

/-- A first price candidate matching `"Contact for price"` makes the price
the raw text verbatim. -/
theorem extract_price_contact (css : String → Option String)
    (h : css "span[itemprop=\"price\"]" = some "Contact for price") :
    extract_price css = .raw "Contact for price" := by
  have hs : pyStrip "Contact for price" = "Contact for price" := by decide
  have hp : priceOfText "Contact for price" = .raw "Contact for price" := by
    have hn : pyFloatParse (priceClean "Contact for price") = none := by decide
    simp [priceOfText, pyFloat, hn]
  rw [extract_price, priceSelectors]
  simp [extractPriceGo, h, hs, hp]

/-! ## C2 -/

/-- C2: selector-fallback chains try candidates in declared order and stop at
the first nonempty (stripped) result; when only the second title candidate
matches, the title is that candidate's stripped text, and when every
candidate fails the title is the default `"N/A"`. -/
theorem title_fallback_spec :
    (∀ (css : String → Option String) (sels : List String),
      safe_find_text_by_css css sels =
        match sels.find? (fun sel => textOf css sel != "") with
        | some sel => textOf css sel
        | none => "N/A") ∧
    (∀ (css : String → Option String) (t : String),
      css "h1.prod-ProductTitle" = none → css "h1[itemprop=\"name\"]" = some t →
      pyStrip t ≠ "" → safe_find_text_by_css css titleSelectors = pyStrip t) ∧
    (∀ css : String → Option String, (∀ sel ∈ titleSelectors, css sel = none) →
      safe_find_text_by_css css titleSelectors = "N/A") := by
  refine ⟨safe_find_eq_find, ?_, ?_⟩
  · intro css t h1 h2 ht
    simp [titleSelectors, safe_find_text_by_css, h1, h2, ht]
  · intro css hall
    simp only [titleSelectors, List.forall_mem_cons, List.forall_mem_nil] at hall
    simp [titleSelectors, safe_find_text_by_css, hall.1, hall.2.1]

/-- C2 witness: a page where only the second title candidate matches. -/
theorem title_fallback_spec_witness :
    safe_find_text_by_css secondTitleCss titleSelectors = pyStrip " Widget " :=
  title_fallback_spec.2.1 secondTitleCss " Widget " (by decide) (by decide) (by decide)

/-! ## C3 -/

/-- C3: price extraction tries its candidates in order and parses the first
nonempty text after removing dollar signs and commas: `"$1,234.50"` yields
the number `1234.50`; unparsable text such as `"Contact for price"` is
stored raw (verbatim) and the task still completes; if every candidate
fails the price is `0.0`. -/
theorem price_extraction_spec :
    (∀ css : String → Option String,
      extract_price css =
        match priceSelectors.find? (fun sel => textOf css sel != "") with
        | some sel => priceOfText (textOf css sel)
        | none => .num 0) ∧
    (∀ css : String → Option String,
      css "span[itemprop=\"price\"]" = some "$1,234.50" →
      extract_price css = .num (2469 / 2)) ∧
    (∀ css : String → Option String,
      css "span[itemprop=\"price\"]" = some "Contact for price" →
      extract_price css = .raw "Contact for price") ∧
    (∀ css : String → Option String, (∀ sel ∈ priceSelectors, css sel = none) →
      extract_price css = .num 0) ∧
    (∀ (env : PageEnv) (t : TaskIn), goodEnv env →
      env.css "span[itemprop=\"price\"]" = some "Contact for price" →
      (scrape_and_store env t submitWorld).taskStatus = .completed ∧
      (scrape_and_store env t submitWorld).products.map Product.price =
        [PriceVal.raw "Contact for price"]) := by
  refine ⟨fun css => extractPriceGo_eq_find css priceSelectors, ?_, extract_price_contact, ?_, ?_⟩
  · intro css h
    have hs : pyStrip "$1,234.50" = "$1,234.50" := by decide
    have hp : priceOfText "$1,234.50" = .num (2469 / 2) := by
      have hc : pyFloatParse (priceClean "$1,234.50") = some ⟨false, 1234, 50, 2, 0⟩ := by
        decide
      rw [priceOfText, pyFloat, hc]
      norm_num [floatVal]
    rw [extract_price, priceSelectors]
    simp [extractPriceGo, h, hs, hp]
  · intro css hall
    simp only [priceSelectors, List.forall_mem_cons, List.forall_mem_nil] at hall
    rw [extract_price, priceSelectors]
    simp [extractPriceGo, hall.1, hall.2.1, hall.2.2.1, hall.2.2.2.1]
  · intro env t hg h
    refine ⟨scrape_good_status env t submitWorld hg, ?_⟩
    rw [scrape_good_products env t submitWorld hg]
    simp [submitWorld, buildProduct, extract_price_contact env.css h]

/-- C3 witness: a page whose first price candidate yields `"Contact for
price"` stores the raw text. -/
theorem price_extraction_spec_witness :
    extract_price rawPriceCss = .raw "Contact for price" :=
  price_extraction_spec.2.2.1 rawPriceCss (by decide)

/-! ## Helper lemmas about the thumbnail loop -/

/-- A raising thumbnail yields no source URL. -/
theorem thumbSrcs_raised (rest : List ThumbRes) :
    thumbSrcs (.raised :: rest) = thumbSrcs rest := rfl

/-- A thumbnail with no `src` attribute yields no source URL. -/
theorem thumbSrcs_ok_none (rest : List ThumbRes) :
    thumbSrcs (.ok none :: rest) = thumbSrcs rest := rfl

/-- A thumbnail with a `src` attribute yields it unless it is empty. -/
theorem thumbSrcs_ok_some (s : String) (rest : List ThumbRes) :
    thumbSrcs (.ok (some s) :: rest) =
      if s = "" then thumbSrcs rest else s :: thumbSrcs rest := by
  by_cases hs : s = "" <;> simp [thumbSrcs, List.filterMap_cons, hs]

/-- The loop only appends: its result is the accumulator followed by a
sublist of the offered source URLs (so encounter order is preserved). -/
theorem imgLoop_acc_sublist (ts : List ThumbRes) :
    ∀ acc : List String, ∃ d, imgLoop acc ts = acc ++ d ∧ List.Sublist d (thumbSrcs ts) := by
  induction ts with
  | nil => intro acc; exact ⟨[], by simp [imgLoop], by simp [thumbSrcs]⟩
  | cons t rest ih =>
    intro acc
    cases t with
    | raised =>
      obtain ⟨d, hd, hsub⟩ := ih acc
      exact ⟨d, hd, by rw [thumbSrcs_raised]; exact hsub⟩
    | ok o =>
      cases o with
      | none =>
        obtain ⟨d, hd, hsub⟩ := ih acc
        exact ⟨d, hd, by rw [thumbSrcs_ok_none]; exact hsub⟩
      | some s =>
        by_cases hs : s = ""
        · obtain ⟨d, hd, hsub⟩ := ih acc
          refine ⟨d, ?_, ?_⟩
          · rw [imgLoop, if_neg (by simp [hs])]
            exact hd
          · rw [thumbSrcs_ok_some, if_pos hs]
            exact hsub
        · by_cases ha : s ∈ acc
          · obtain ⟨d, hd, hsub⟩ := ih acc
            refine ⟨d, ?_, ?_⟩
            · rw [imgLoop, if_neg (by simp [ha])]
              exact hd
            · rw [thumbSrcs_ok_some, if_neg hs]
              exact hsub.cons s
          · obtain ⟨d, hd, hsub⟩ := ih (acc ++ [s])
            refine ⟨s :: d, ?_, ?_⟩
            · rw [imgLoop, if_pos ⟨hs, ha⟩, hd, List.append_assoc]
              rfl
            · rw [thumbSrcs_ok_some, if_neg hs]
              exact hsub.cons₂ s

/-- The loop never introduces a duplicate. -/
theorem imgLoop_nodup (ts : List ThumbRes) :
    ∀ acc : List String, acc.Nodup → (imgLoop acc ts).Nodup := by
  induction ts with
  | nil => intro acc h; exact h
  | cons t rest ih =>
    intro acc h
    cases t with
    | raised => exact ih acc h
    | ok o =>
      cases o with
      | none => exact ih acc h
      | some s =>
        by_cases hc : s ≠ "" ∧ s ∉ acc
        · rw [imgLoop, if_pos hc]
          refine ih _ ?_
          simp [List.nodup_append, h, hc.2]
        · rw [imgLoop, if_neg hc]
          exact ih acc h

/-- The loop collects exactly the offered URLs (plus the accumulator). -/
theorem imgLoop_mem (ts : List ThumbRes) :
    ∀ (acc : List String) (x : String),
      x ∈ imgLoop acc ts ↔ x ∈ acc ∨ x ∈ thumbSrcs ts := by
  induction ts with
  | nil => intro acc x; simp [imgLoop, thumbSrcs]
  | cons t rest ih =>
    intro acc x
    cases t with
    | raised => rw [thumbSrcs_raised]; exact ih acc x
    | ok o =>
      cases o with
      | none => rw [thumbSrcs_ok_none]; exact ih acc x
      | some s =>
        by_cases hs : s = ""
        · rw [imgLoop, if_neg (by simp [hs]), thumbSrcs_ok_some, if_pos hs]
          exact ih acc x
        · by_cases ha : s ∈ acc
          · rw [imgLoop, if_neg (by simp [ha]), thumbSrcs_ok_some, if_neg hs, ih acc x]
            constructor
            · rintro (h | h)
              · exact Or.inl h
              · exact Or.inr (List.mem_cons_of_mem _ h)
            · rintro (h | h)
              · exact Or.inl h
              · rcases List.mem_cons.mp h with h | h
                · exact Or.inl (h ▸ ha)
                · exact Or.inr h
          · rw [imgLoop, if_pos ⟨hs, ha⟩, thumbSrcs_ok_some, if_neg hs, ih (acc ++ [s]) x]
            simp only [List.mem_append, List.mem_singleton, List.mem_cons]
            tauto

/-- A raising thumbnail is skipped: the loop result is unchanged by removing
it from the processed list. -/
theorem imgLoop_skip_raised (pre post : List ThumbRes) :
    ∀ acc : List String, imgLoop acc (pre ++ .raised :: post) = imgLoop acc (pre ++ post) := by
  induction pre with
  | nil => intro acc; rfl
  | cons t rest ih =>
    intro acc
    cases t with
    | raised => exact ih acc
    | ok o =>
      cases o with
      | none => exact ih acc
      | some s =>
        by_cases hc : s ≠ "" ∧ s ∉ acc
        · rw [List.cons_append, imgLoop, if_pos hc, List.cons_append, imgLoop, if_pos hc]
          exact ih _
        · rw [List.cons_append, imgLoop, if_neg hc, List.cons_append, imgLoop, if_neg hc]
          exact ih acc

/-! ## C7 -/

/-- C7: image extraction processes at most five thumbnails, returns no two
equal URLs even when the same thumbnail (hence the same URL) is encountered
twice, collects exactly the URLs read from the processed thumbnails, and
preserves the order in which they were encountered (the result is a sublist
of the encountered URL sequence). -/
theorem image_extraction_spec :
    (∀ ts : List ThumbRes, extract_images ts = extract_images (ts.take 5)) ∧
    (∀ ts : List ThumbRes, (extract_images ts).Nodup) ∧
    (∀ ts : List ThumbRes, List.Sublist (extract_images ts) (thumbSrcs (ts.take 5))) ∧
    (∀ (ts : List ThumbRes) (x : String),
      x ∈ extract_images ts ↔ x ∈ thumbSrcs (ts.take 5)) ∧
    extract_images [.ok (some "u"), .ok (some "u")] = ["u"] ∧
    extract_images [.ok (some "a"), .ok (some "b"), .ok (some "a")] = ["a", "b"] := by
  refine ⟨?_, ?_, ?_, ?_, by decide, by decide⟩
  · intro ts
    rw [extract_images, extract_images, List.take_take]
    simp
  · intro ts
    exact imgLoop_nodup _ [] List.nodup_nil
  · intro ts
    obtain ⟨d, hd, hsub⟩ := imgLoop_acc_sublist (ts.take 5) []
    rw [extract_images, hd]
    simpa using hsub
  · intro ts x
    have h := imgLoop_mem (ts.take 5) [] x
    simpa [extract_images] using h

/-! ## C10 -/

/-- C10: a per-thumbnail failure (click or read raising) only skips that
thumbnail — the loop result is as if the raising entry were absent — and on
an otherwise error-free execution the task still completes, with the images
field holding the URLs read from the surviving thumbnails. -/
theorem thumb_error_isolated :
    (∀ (acc : List String) (pre post : List ThumbRes),
      imgLoop acc (pre ++ .raised :: post) = imgLoop acc (pre ++ post)) ∧
    (∀ (env : PageEnv) (t : TaskIn), goodEnv env →
      (scrape_and_store env t submitWorld).taskStatus = .completed ∧
      (scrape_and_store env t submitWorld).products.map Product.images =
        [extract_images env.thumbs]) := by
  refine ⟨fun acc pre post => imgLoop_skip_raised pre post acc, ?_⟩
  intro env t hg
  refine ⟨scrape_good_status env t submitWorld hg, ?_⟩
  rw [scrape_good_products env t submitWorld hg]
  simp [submitWorld, buildProduct]

/-- C10 witness: an execution whose first thumbnail raises still completes,
storing the URL read from the second thumbnail. -/
theorem thumb_error_isolated_witness :
    (scrape_and_store flakyThumbEnv demoTask submitWorld).taskStatus = .completed ∧
    (scrape_and_store flakyThumbEnv demoTask submitWorld).products.map Product.images =
      [extract_images flakyThumbEnv.thumbs] :=
  thumb_error_isolated.2 flakyThumbEnv demoTask ⟨rfl, rfl, Or.inl (by decide), rfl, rfl⟩

/-! ## C8 -/

/-- C8: related-link extraction collects exactly the anchors whose href
contains the product-detail marker `/ip/`, strips everything from the first
`?` of each href, and returns a set (duplicates collapse, order not
guaranteed); in particular two links differing only in their query string
collapse to one entry. -/
theorem related_links_spec :
    (∀ (anchors : List String) (u : String),
      u ∈ related_links anchors ↔
        ∃ h ∈ anchors, pyIn "/ip/" h = true ∧ h ≠ "" ∧ stripQuery h = u) ∧
    (∀ h : String, (stripQuery h).toList.all (fun c => c != '?') = true) ∧
    (∀ h : String, List.IsPrefix (stripQuery h).toList h.toList) ∧
    related_links ["https://w.com/ip/123?tid=5", "https://w.com/ip/123?tid=9"] =
      {"https://w.com/ip/123"} := by
  refine ⟨?_, ?_, ?_, by decide⟩
  · intro anchors u
    simp only [related_links, ipAnchorHrefs, List.mem_toFinset, List.mem_map,
      List.mem_filter, bne_iff_ne, ne_eq]
    constructor
    · rintro ⟨h, ⟨⟨hmem, hip⟩, hne⟩, hstrip⟩
      exact ⟨h, hmem, hip, hne, hstrip⟩
    · rintro ⟨h, hmem, hip, hne, hstrip⟩
      exact ⟨h, ⟨⟨hmem, hip⟩, hne⟩, hstrip⟩
  · intro h
    rw [List.all_eq_true]
    intro c hc
    rw [bne_iff_ne]
    have hc2 : c ∈ h.toList.takeWhile (fun c => decide (c ≠ '?')) := hc
    have hp := List.mem_takeWhile_imp hc2
    simpa using hp
  · intro h
    exact List.takeWhile_prefix _

/-! ## C9 -/

/-- C9: in the task- and product-listing queries an empty-string filter
parameter behaves exactly like an omitted one — Python truthiness makes
`""` skip the query constraint just as `None` does — so listing with
`client_name`, `status` or `category` equal to `""` returns the same records
as listing without that parameter. -/
theorem empty_filter_spec :
    (∀ (st cat : Option String) (tasks : List TaskRec),
      list_tasks (some "") st cat tasks = list_tasks none st cat tasks) ∧
    (∀ (cn cat : Option String) (tasks : List TaskRec),
      list_tasks cn (some "") cat tasks = list_tasks cn none cat tasks) ∧
    (∀ (cn st : Option String) (tasks : List TaskRec),
      list_tasks cn st (some "") tasks = list_tasks cn st none tasks) ∧
    (∀ (cat : Option String) (mn mx : Option ℚ) (ps : List Product),
      list_products (some "") cat mn mx ps = list_products none cat mn mx ps) ∧
    (∀ (cn : Option String) (mn mx : Option ℚ) (ps : List Product),
      list_products cn (some "") mn mx ps = list_products cn none mn mx ps) := by
  refine ⟨?_, ?_, ?_, ?_, ?_⟩ <;> intros <;> rfl

end ScrapedApi
